import Mathlib

/-!
# Verification of the awsssologin repository

Shallow embedding of the Go sources of `awsssologin` (AWS SSO browser-login
automation) together with proofs of the specification's testable properties.

The embedding models the external collaborators (browser automation, terminal,
environment variables, stdin) as explicit oracle values:

* `Env` gives the outcome of every browser-automation call
  (launch / connect / open page / element lookup / input / key / click / close)
  and of TOTP generation;
* `CredEnv` gives the environment-variable values and the outcome of terminal
  reads (`promptForInput`);
* stdin is a list of already-scanned lines.

Every function keeps the name it has in the source.  Functions additionally
return the list of collaborator calls they perform (`Event` / `CredEvent`), so
ordering, cleanup and call-count properties can be stated about the traces.
-/

set_option maxHeartbeats 1000000

/-- The configuration record of `config.go` (`type Config struct`).  The field
`InteractiveTOTP` belongs to the revision of the struct that `browser.go`
compiles against (`getTOTPCode` reads it); the remaining fields are the ones
declared in `src/config.go`. -/
structure Config where
  Username : String
  Password : String
  TwoFA : String
  TOTPSecret : String
  DeviceURL : String
  ShowBrowser : Bool
  TimeoutSeconds : Int
  LogLevel : String
  InteractiveTOTP : Bool
deriving DecidableEq, Repr

/-- Oracle for the credential-resolution collaborators: environment variables
(`os.Getenv`, where the empty string means "unset", exactly as Go's
`os.Getenv` reports it) and the two kinds of terminal read used by
`promptForInput` (`term.ReadPassword` for secure input, `bufio.Reader.ReadString`
for plain input).  `plainInput` is the raw line before `strings.TrimSpace`. -/
structure CredEnv where
  envUsername : String
  envPassword : String
  env2FA : String
  envTotpSecret : String
  plainInput : String
  plainReadErr : Bool
  secureInput : String
  secureReadErr : Bool
deriving DecidableEq, Repr

/-- Oracle for the browser-automation collaborator (go-rod).  A `String → Bool`
field gives the outcome of the call for the element identified by its XPath;
`elementOk x` abstracts `page.Timeout(timeout).ElementX(x)` finding the element
within the configured per-step timeout.  `totpGenerateOk` / `totpCode` abstract
`totp.GenerateCode(secret, time.Now())`. -/
structure Env where
  launchOk : Bool
  connectOk : Bool
  pageOk : Bool
  elementOk : String → Bool
  inputOk : String → Bool
  enterOk : String → Bool
  clickOk : String → Bool
  totpGenerateOk : Bool
  totpCode : String
  closeOk : Bool

/-- One browser-automation collaborator call, as recorded in a run's trace. -/
inductive Event where
  | launch
  | connect
  | openPage (url : String)
  | findEl (xpath : String)
  | inputEl (xpath : String) (value : String)
  | typeEnter (xpath : String)
  | clickEl (xpath : String)
  | acquireTOTP
  | sleepDelay (seconds : Nat)
  | close
  | logCloseError
deriving DecidableEq, Repr

/-- One interactive terminal prompt issued by `getCredentials`
(a call of `promptForInput`). -/
inductive CredEvent where
  | prompt (message : String) (secure : Bool)
deriving DecidableEq, Repr

/-! ## Constants of `browser.go` -/

/-- `BrowserCloseDelay = 300 * time.Second`, in seconds. -/
def BrowserCloseDelay : Nat := 300

def XPathUsername : String := "//*[@id=\"awsui-input-0\"]"

def XPathPassword : String := "//*[@id=\"awsui-input-1\"]"

def XPathTOTP : String := "//*[@id=\"awsui-input-2\"]"

def XPathAllow1 : String := "//*[@id=\"cli_verification_btn\"]"

def XPathAllow2 : String := "//*[@data-testid=\"allow-access-button\"]"

def XPathSuccess : String := "//*[@data-analytics-alert=\"success\"]"

/-! ## `config.go` -/

/-- `strings.TrimSpace`: strip leading and trailing whitespace (the embedding
uses the ASCII whitespace classes; the exotic Unicode space code points of
`unicode.IsSpace` are not modelled). -/
def trimSpace (s : String) : String :=
  String.mk (((s.data.dropWhile Char.isWhitespace).reverse.dropWhile
    Char.isWhitespace).reverse)

/-- `promptForInput(prompt, secure)` of `config.go`: secure input via
`term.ReadPassword` (not trimmed), plain input via `ReadString('\n')` followed
by `strings.TrimSpace`; in both modes an empty result is rejected with
"input is empty".  Returns the Go pair `(string, error)` with `none` for a nil
error. -/
def promptForInput (ce : CredEnv) (prompt : String) (secure : Bool) :
    String × Option String :=
  let _ := prompt
  if secure then
    if ce.secureReadErr then ("", some "failed to read secure input")
    else
      let input := ce.secureInput
      if input = "" then ("", some "input is empty") else (input, none)
  else
    if ce.plainReadErr then ("", some "failed to read plain text input")
    else
      let input := trimSpace ce.plainInput
      if input = "" then ("", some "input is empty") else (input, none)

/-- `Config.hasIncompleteCredentials` of `config.go`: true if username or
password is missing, or both the 2FA code and the TOTP secret are missing. -/
def Config.hasIncompleteCredentials (c : Config) : Bool :=
  c.Username = "" || c.Password = "" || (c.TwoFA = "" && c.TOTPSecret = "")

/-- The CLI -> ENV cascade that forms the first half of `getCredentials`
(`config.go` lines 56-94): each of the four credential fields is taken from its
environment variable only when the flag left it empty and the variable is set. -/
def applyCascade (ce : CredEnv) (c : Config) : Config :=
  let c := if c.Username = "" then
      (if ce.envUsername ≠ "" then { c with Username := ce.envUsername } else c)
    else c
  let c := if c.Password = "" then
      (if ce.envPassword ≠ "" then { c with Password := ce.envPassword } else c)
    else c
  let c := if c.TwoFA = "" then
      (if ce.env2FA ≠ "" then { c with TwoFA := ce.env2FA } else c)
    else c
  let c := if c.TOTPSecret = "" then
      (if ce.envTotpSecret ≠ "" then { c with TOTPSecret := ce.envTotpSecret } else c)
    else c
  c

/-- `getCredentials(config)` of `config.go`: the CLI -> ENV cascade, then the
guard "interactive prompts work only with --device-url flag" (lines 96-99),
then the interactive prompts for a still-missing username and password.  A
missing 2FA code / TOTP secret is only logged ("will prompt for 2FA code
later").  Returns the prompts issued, the mutated config and the Go error. -/
def getCredentials (ce : CredEnv) (config : Config) :
    List CredEvent × Config × Option String :=
  let config := applyCascade ce config
  if config.DeviceURL = "" ∧ config.hasIncompleteCredentials then
    ([], config, some "interactive prompts work only with --device-url flag")
  else
    if config.Username = "" then
      match promptForInput ce "Enter AWS SSO username: " false with
      | (_, some e) => ([CredEvent.prompt "Enter AWS SSO username: " false], config, some e)
      | (username, none) =>
        let config := { config with Username := username }
        if config.Password = "" then
          match promptForInput ce "Enter AWS SSO password: " true with
          | (_, some e) =>
            ([CredEvent.prompt "Enter AWS SSO username: " false,
              CredEvent.prompt "Enter AWS SSO password: " true], config, some e)
          | (password, none) =>
            ([CredEvent.prompt "Enter AWS SSO username: " false,
              CredEvent.prompt "Enter AWS SSO password: " true],
             { config with Password := password }, none)
        else
          ([CredEvent.prompt "Enter AWS SSO username: " false], config, none)
    else
      if config.Password = "" then
        match promptForInput ce "Enter AWS SSO password: " true with
        | (_, some e) => ([CredEvent.prompt "Enter AWS SSO password: " true], config, some e)
        | (password, none) =>
          ([CredEvent.prompt "Enter AWS SSO password: " true],
           { config with Password := password }, none)
      else
        ([], config, none)

/-! ## `browser.go` -/

/-- `findElement(page, xpath, description, timeout)` of `browser.go`: one
`ElementX` lookup bounded by the per-step timeout; not-found yields the error
"description not found with XPath xpath". -/
def findElement (e : Env) (xpath : String) (description : String) :
    List Event × Option String :=
  if e.elementOk xpath then ([Event.findEl xpath], none)
  else ([Event.findEl xpath], some (description ++ " not found with XPath " ++ xpath))

/-- `fillAndSubmitField(page, xpath, value, description, timeout)` of
`browser.go`: locate the field, `Input` the value, then `Type(input.Enter)` to
submit; the first failing call aborts the step. -/
def fillAndSubmitField (e : Env) (xpath : String) (value : String)
    (description : String) : List Event × Option String :=
  match findElement e xpath description with
  | (t, some msg) => (t, some msg)
  | (t, none) =>
    if e.inputOk xpath then
      if e.enterOk xpath then
        (t ++ [Event.inputEl xpath value, Event.typeEnter xpath], none)
      else
        (t ++ [Event.inputEl xpath value, Event.typeEnter xpath],
         some ("failed to submit " ++ description ++ " form"))
    else
      (t ++ [Event.inputEl xpath value], some ("failed to input " ++ description))

/-- `clickButton(page, xpath, description, timeout)` of `browser.go`: locate
the button then `Click` it. -/
def clickButton (e : Env) (xpath : String) (description : String) :
    List Event × Option String :=
  match findElement e xpath description with
  | (t, some msg) => (t, some msg)
  | (t, none) =>
    if e.clickOk xpath then (t ++ [Event.clickEl xpath], none)
    else (t ++ [Event.clickEl xpath], some ("failed to click " ++ description))

/-- `getTOTPCode(config)` of `browser.go`: prompt interactively when
`config.InteractiveTOTP` is set, otherwise generate the code from the secret
with `totp.GenerateCode`.  Returns the browser-trace events, the code and the
error. -/
def getTOTPCode (e : Env) (ce : CredEnv) (config : Config) :
    List Event × String × Option String :=
  if config.InteractiveTOTP then
    match promptForInput ce "Enter TOTP code: " false with
    | (code, r) => ([Event.acquireTOTP], code, r)
  else
    ([Event.acquireTOTP], e.totpCode,
     if e.totpGenerateOk then none else some "failed to generate TOTP code")

/-- `checkSuccessMessage(page, timeout)` of `browser.go`: locate the success
indicator `XPathSuccess`; absence is a failure. -/
def checkSuccessMessage (e : Env) : List Event × Option String :=
  if e.elementOk XPathSuccess then ([Event.findEl XPathSuccess], none)
  else ([Event.findEl XPathSuccess],
        some ("success message not found with XPath " ++ XPathSuccess))

/-- The straight-line step sequence of `automateBrowserLogin` after the session
is connected (`browser.go` lines 150-206): open the device URL, fill-and-submit
username, password, acquire then fill-and-submit the TOTP code, click the two
Allow buttons, and check the success message.  Each failure returns
immediately. -/
def loginSteps (e : Env) (ce : CredEnv) (deviceURL : String) (config : Config) :
    List Event × Option String :=
  if e.pageOk then
    let t0 := [Event.openPage deviceURL]
    match fillAndSubmitField e XPathUsername config.Username "username field" with
    | (t1, some msg) => (t0 ++ t1, some msg)
    | (t1, none) =>
      match fillAndSubmitField e XPathPassword config.Password "password field" with
      | (t2, some msg) => (t0 ++ t1 ++ t2, some msg)
      | (t2, none) =>
        match getTOTPCode e ce config with
        | (t3, _, some msg) =>
          (t0 ++ t1 ++ t2 ++ t3, some ("failed to get TOTP code: " ++ msg))
        | (t3, totpCode, none) =>
          match fillAndSubmitField e XPathTOTP totpCode "TOTP field" with
          | (t4, some msg) => (t0 ++ t1 ++ t2 ++ t3 ++ t4, some msg)
          | (t4, none) =>
            match clickButton e XPathAllow1 "first Allow button" with
            | (t5, some msg) => (t0 ++ t1 ++ t2 ++ t3 ++ t4 ++ t5, some msg)
            | (t5, none) =>
              match clickButton e XPathAllow2 "second Allow button" with
              | (t6, some msg) => (t0 ++ t1 ++ t2 ++ t3 ++ t4 ++ t5 ++ t6, some msg)
              | (t6, none) =>
                match checkSuccessMessage e with
                | (t7, r) => (t0 ++ t1 ++ t2 ++ t3 ++ t4 ++ t5 ++ t6 ++ t7, r)
  else ([Event.openPage deviceURL], some ("failed to open page " ++ deviceURL))

/-- The deferred teardown of `automateBrowserLogin` (`browser.go` lines
136-148): when the browser is visible and the function's `err` variable is
non-nil at defer time, sleep `BrowserCloseDelay` first; then `browser.Close()`,
whose own failure is only logged. -/
def teardown (e : Env) (config : Config) (failed : Bool) : List Event :=
  (if config.ShowBrowser && failed then [Event.sleepDelay BrowserCloseDelay] else [])
    ++ [Event.close]
    ++ (if e.closeOk then [] else [Event.logCloseError])

/-- `automateBrowserLogin(deviceURL, config)` of `browser.go`: launch the
browser, connect to it, register the deferred teardown, then run the
straight-line login steps.  The defer is registered only after `Connect`
succeeds, so launch and connect failures return without any teardown. -/
def automateBrowserLogin (e : Env) (ce : CredEnv) (deviceURL : String)
    (config : Config) : List Event × Option String :=
  if e.launchOk then
    if e.connectOk then
      match loginSteps e ce deviceURL config with
      | (tb, r) =>
        ([Event.launch, Event.connect] ++ tb ++ teardown e config r.isSome, r)
    else ([Event.launch, Event.connect], some "failed to connect to browser")
  else ([Event.launch], some "failed to launch browser")

/-! ## `main.go`: device-URL extraction -/

/-- Character class `[A-Z0-9-]` of `DeviceURLRegex` (user-code charset). -/
def isCodeChar (c : Char) : Bool :=
  ('A' ≤ c && c ≤ 'Z') || ('0' ≤ c && c ≤ '9') || c = '-'

/-- Character class for a hostname token in the spec's device-URL pattern:
alphanumerics and hyphens. -/
def isHostChar (c : Char) : Bool :=
  ('A' ≤ c && c ≤ 'Z') || ('a' ≤ c && c ≤ 'z') || ('0' ≤ c && c ≤ '9') || c = '-'

/-- The literal part of `DeviceURLRegex` (`main.go`):  the regular expression
is this literal (with `.` and `?` escaped) followed by `[A-Z0-9-]+`.  Note the
host is hardcoded to `pashapay`. -/
def deviceURLLiteral : String :=
  "https://pashapay.awsapps.com/start/#/device?user_code="

/-- Whether the pattern list starts the character list. -/
def startsWithChars : List Char → List Char → Bool
  | [], _ => true
  | _ :: _, [] => false
  | p :: ps, c :: cs => p = c && startsWithChars ps cs

/-- `urlRegex.FindString(line)` for `DeviceURLRegex`, on the characters of one
line: the leftmost occurrence of the literal followed by a non-empty greedy run
of `[A-Z0-9-]`; `none` when the line has no match (Go's `FindString` returning
`""`). -/
def findDeviceURLMatch : List Char → Option (List Char)
  | [] => none
  | c :: cs =>
    if startsWithChars deviceURLLiteral.data (c :: cs) then
      let rest := (c :: cs).drop deviceURLLiteral.data.length
      let code := rest.takeWhile isCodeChar
      if code = [] then findDeviceURLMatch cs
      else some (deviceURLLiteral.data ++ code)
    else findDeviceURLMatch cs

/-- `readDeviceURLFromStdin()` of `main.go`: scan stdin line by line and return
the first `DeviceURLRegex` match; after the stream ends, report a scanner error
or "device URL not found in AWS SSO output".  `lines` are the successfully
scanned lines and `scanErr` is the scanner's final error state.  Returns the
Go pair `(string, error)`. -/
def readDeviceURLFromStdin (lines : List String) (scanErr : Bool) :
    String × Option String :=
  match lines with
  | [] =>
    ("", if scanErr then some "error reading from stdin"
         else some "device URL not found in AWS SSO output")
  | l :: ls =>
    match findDeviceURLMatch l.data with
    | some m => (String.mk m, none)
    | none => readDeviceURLFromStdin ls scanErr

/-- The device-URL pattern exactly as the spec states it (spec-side definition,
for comparison with the source's `DeviceURLRegex`):
`https://<host>.awsapps.com/start/#/device?user_code=<code>` where `<host>` is
a non-empty string of alphanumerics and hyphens and `<code>` a non-empty string
of uppercase alphanumerics and hyphens. -/
def specDeviceURLMatch (s : String) : Bool :=
  let mid := ".awsapps.com/start/#/device?user_code=".data
  let scheme := "https://".data
  let rest := s.data.drop scheme.length
  let host := rest.takeWhile isHostChar
  let tail := rest.drop host.length
  let code := tail.drop mid.length
  startsWithChars scheme s.data && !host.isEmpty && startsWithChars mid tail
    && !code.isEmpty && code.all isCodeChar

/-! ## `config.go`: validation, and the spec-modelled command wiring -/

/-- Modelled from the spec: the compiled regular expression
`deviceURLValidationPattern` used by `validateDeviceURL` (`config.go` line 49)
is declared in a source file that is not under `src/`; per the spec the
directly-supplied device URL "must match a fixed pattern
`https://<host>.awsapps.com/start/#/device?user_code=<code>`", so the check is
modelled with the spec's pattern. -/
def validateDeviceURL (url : String) : Option String :=
  if specDeviceURLMatch url then none
  else some "URL does not match expected AWS SSO device URL pattern"

/-- `Config.ValidateConfig` of `config.go`: a non-positive `TimeoutSeconds` is
rejected ("timeout must be at least 1 second"), and a non-empty `DeviceURL`
must pass `validateDeviceURL`. -/
def Config.ValidateConfig (c : Config) : Option String :=
  if c.TimeoutSeconds ≤ 0 then some "timeout must be at least 1 second"
  else if c.DeviceURL ≠ "" then
    match validateDeviceURL c.DeviceURL with
    | some e => some ("invalid device URL: " ++ e)
    | none => none
  else none

/-- Modelled from the spec: the current revision's command wiring (the
`main.go` that calls `Config.ValidateConfig`) is not under `src/` — only an
older revision of `runSSO` is.  Per the spec, a non-positive per-step timeout
"is a configuration error rejected before the state machine starts" and is
"detected before any browser interaction"; credential resolution and device-URL
extraction follow (neither performs a browser-automation call), then
`automateBrowserLogin`.  The returned trace contains exactly the
browser-automation calls of the run. -/
def runSSO (e : Env) (ce : CredEnv) (stdin : List String) (scanErr : Bool)
    (config : Config) : List Event × Option String :=
  match config.ValidateConfig with
  | some msg => ([], some msg)
  | none =>
    match getCredentials ce config with
    | (_, _, some msg) => ([], some ("failed to get credentials: " ++ msg))
    | (_, config, none) =>
      if config.DeviceURL ≠ "" then
        automateBrowserLogin e ce config.DeviceURL config
      else
        match readDeviceURLFromStdin stdin scanErr with
        | (_, some msg) => ([], some ("failed to read device URL from stdin: " ++ msg))
        | (url, none) => automateBrowserLogin e ce url config

/-! ## Spec-side step bookkeeping

The spec's fixed step sequence, numbered as in claim C1:
0 = open device URL, 1 = username, 2 = password, 3 = one-time code
(acquire + fill + submit), 4 = first Allow, 5 = second Allow,
6 = success indicator. -/

/-- Maps an event to the step it begins, if any.  A step begins with its first
collaborator call: `openPage` for step 0, the element lookup of the respective
field or button for steps 1, 2, 4, 5 and 6, and the code acquisition for step 3
(the TOTP step acquires the code before locating the field, so its lookup is
not a step start). -/
def stepOfEvent : Event → Option Nat
  | Event.openPage _ => some 0
  | Event.findEl x =>
    if x = XPathUsername then some 1
    else if x = XPathPassword then some 2
    else if x = XPathAllow1 then some 4
    else if x = XPathAllow2 then some 5
    else if x = XPathSuccess then some 6
    else none
  | Event.acquireTOTP => some 3
  | _ => none

/-- The steps a trace begins, in order. -/
def stepStarts (tr : List Event) : List Nat :=
  tr.filterMap stepOfEvent

/-- A fill-and-submit step succeeds when its lookup, input and Enter keystroke
all succeed. -/
def fillStepOk (e : Env) (x : String) : Bool :=
  e.elementOk x && e.inputOk x && e.enterOk x

/-- A click step succeeds when its lookup and click succeed. -/
def clickStepOk (e : Env) (x : String) : Bool :=
  e.elementOk x && e.clickOk x

/-- Whether one-time-code acquisition succeeds. -/
def totpAcqOk (e : Env) (ce : CredEnv) (config : Config) : Bool :=
  ((getTOTPCode e ce config).2.2).isNone

/-- The value `getTOTPCode` hands to the TOTP field. -/
def totpValue (e : Env) (ce : CredEnv) (config : Config) : String :=
  (getTOTPCode e ce config).2.1

/-- Whether all seven steps after session setup succeed. -/
def innerOk (e : Env) (ce : CredEnv) (config : Config) : Bool :=
  e.pageOk && fillStepOk e XPathUsername && fillStepOk e XPathPassword
    && totpAcqOk e ce config && fillStepOk e XPathTOTP
    && clickStepOk e XPathAllow1 && clickStepOk e XPathAllow2
    && e.elementOk XPathSuccess

/-- One plus the position of the first failing step (so: the number of steps
the run starts), or 7 when every step succeeds. -/
def innerStepCount (e : Env) (ce : CredEnv) (config : Config) : Nat :=
  if !e.pageOk then 1
  else if !fillStepOk e XPathUsername then 2
  else if !fillStepOk e XPathPassword then 3
  else if !(totpAcqOk e ce config && fillStepOk e XPathTOTP) then 4
  else if !clickStepOk e XPathAllow1 then 5
  else if !clickStepOk e XPathAllow2 then 6
  else 7

/-- Number of steps the whole run starts: zero when the session could not even
be set up (launch or connect failure). -/
def stepCount (e : Env) (ce : CredEnv) (config : Config) : Nat :=
  if e.launchOk && e.connectOk then innerStepCount e ce config else 0

/-- Trace of the element-interaction calls of one fill-and-submit step: the
lookup always happens; the input only after a successful lookup; the Enter
keystroke only after a successful input (it is attempted, and recorded, even
when it fails). -/
def fillTrace (e : Env) (x v : String) : List Event :=
  if e.elementOk x then
    if e.inputOk x then [Event.findEl x, Event.inputEl x v, Event.typeEnter x]
    else [Event.findEl x, Event.inputEl x v]
  else [Event.findEl x]

/-- Trace of the calls of one click step. -/
def clickTrace (e : Env) (x : String) : List Event :=
  if e.elementOk x then [Event.findEl x, Event.clickEl x]
  else [Event.findEl x]

/-- Closed form of the trace produced by `loginSteps`: the calls of the steps
up to and including the first failing one. -/
def bodyTrace (e : Env) (ce : CredEnv) (deviceURL : String) (config : Config) :
    List Event :=
  [Event.openPage deviceURL] ++
    (if !e.pageOk then [] else
      fillTrace e XPathUsername config.Username ++
        (if !fillStepOk e XPathUsername then [] else
          fillTrace e XPathPassword config.Password ++
            (if !fillStepOk e XPathPassword then [] else
              [Event.acquireTOTP] ++
                (if !totpAcqOk e ce config then [] else
                  fillTrace e XPathTOTP (totpValue e ce config) ++
                    (if !fillStepOk e XPathTOTP then [] else
                      clickTrace e XPathAllow1 ++
                        (if !clickStepOk e XPathAllow1 then [] else
                          clickTrace e XPathAllow2 ++
                            (if !clickStepOk e XPathAllow2 then [] else
                              [Event.findEl XPathSuccess])))))))

/-! ## Concrete oracles and inputs used by witnesses and counterexamples -/

/-- Whether an event is one of the in-page interaction calls (as opposed to the
session-lifecycle calls launch / connect / sleep / close). -/
def bodyEvent : Event → Bool
  | Event.launch => false
  | Event.connect => false
  | Event.sleepDelay _ => false
  | Event.close => false
  | Event.logCloseError => false
  | _ => true

/-- Oracle in which every browser-automation call succeeds. -/
def envAllOk : Env :=
  ⟨true, true, true, fun _ => true, fun _ => true, fun _ => true, fun _ => true,
    true, "123456", true⟩

/-- Oracle in which the browser launches but the connection to it fails. -/
def envConnectFail : Env :=
  ⟨true, false, true, fun _ => true, fun _ => true, fun _ => true, fun _ => true,
    true, "123456", true⟩

/-- Oracle in which every element lookup fails (the run fails at the username
step). -/
def envStepFail : Env :=
  ⟨true, true, true, fun _ => false, fun _ => true, fun _ => true, fun _ => true,
    true, "123456", true⟩

/-- Credential oracle with no environment variables set and empty terminal
reads. -/
def ce0 : CredEnv := ⟨"", "", "", "", "", false, "", false⟩

/-- Configuration with full credentials, headless, default timeout. -/
def cfg0 : Config := ⟨"user", "pass", "", "secret", "", false, 30, "info", false⟩

/-- Like `cfg0` but with a visible browser window. -/
def cfgVisible : Config := ⟨"user", "pass", "", "secret", "", true, 30, "info", false⟩

/-- Like `cfg0` but with a zero per-step timeout. -/
def cfgZeroTimeout : Config := ⟨"user", "pass", "", "secret", "", false, 0, "info", false⟩

/-- Configuration with no credentials and no directly-supplied device URL. -/
def cfgEmpty : Config := ⟨"", "", "", "", "", false, 30, "info", false⟩

/-- A line holding a device URL whose host is not pashapay but matches the
spec's pattern. -/
def badHostLine : String := "https://example.awsapps.com/start/#/device?user_code=ABCD-1234"

/-- A device URL with the hardcoded pashapay host. -/
def pashapayLine : String := "https://pashapay.awsapps.com/start/#/device?user_code=ABCD-1234"

/-- Configuration with full credentials and a directly-supplied device URL. -/
def cfgFull : Config := ⟨"u", "p", "2", "s", pashapayLine, false, 30, "info", false⟩

/-- Credential oracle whose plain terminal read yields a non-empty line. -/
def ceW : CredEnv := ⟨"", "", "", "", "  hello \n", false, "secret", false⟩

/-! ## Characterization lemmas -/

theorem fill_trace_eq (e : Env) (x v d : String) :
    (fillAndSubmitField e x v d).1 = fillTrace e x v := by
  unfold fillAndSubmitField findElement fillTrace
  cases h1 : e.elementOk x <;> cases h2 : e.inputOk x <;> cases h3 : e.enterOk x <;>
    simp [h1, h2, h3]

theorem fill_ok_iff (e : Env) (x v d : String) :
    (fillAndSubmitField e x v d).2 = none ↔ fillStepOk e x = true := by
  unfold fillAndSubmitField findElement fillStepOk
  cases h1 : e.elementOk x <;> cases h2 : e.inputOk x <;> cases h3 : e.enterOk x <;>
    simp [h1, h2, h3]

theorem click_trace_eq (e : Env) (x d : String) :
    (clickButton e x d).1 = clickTrace e x := by
  unfold clickButton findElement clickTrace
  cases h1 : e.elementOk x <;> cases h2 : e.clickOk x <;> simp [h1, h2]

theorem click_ok_iff (e : Env) (x d : String) :
    (clickButton e x d).2 = none ↔ clickStepOk e x = true := by
  unfold clickButton findElement clickStepOk
  cases h1 : e.elementOk x <;> cases h2 : e.clickOk x <;> simp [h1, h2]

theorem getTOTPCode_trace_eq (e : Env) (ce : CredEnv) (c : Config) :
    (getTOTPCode e ce c).1 = [Event.acquireTOTP] := by
  unfold getTOTPCode
  cases hI : c.InteractiveTOTP <;> simp [hI]

theorem success_trace_eq (e : Env) :
    (checkSuccessMessage e).1 = [Event.findEl XPathSuccess] := by
  unfold checkSuccessMessage
  cases h : e.elementOk XPathSuccess <;> simp [h]

theorem success_ok_iff (e : Env) :
    (checkSuccessMessage e).2 = none ↔ e.elementOk XPathSuccess = true := by
  unfold checkSuccessMessage
  cases h : e.elementOk XPathSuccess <;> simp [h]

theorem loginSteps_spec (e : Env) (ce : CredEnv) (url : String) (c : Config) :
    (loginSteps e ce url c).1 = bodyTrace e ce url c ∧
      ((loginSteps e ce url c).2 = none ↔ innerOk e ce c = true) := by
  unfold loginSteps bodyTrace innerOk
  cases hp : e.pageOk
  · simp [hp]
  · rcases hF1 : fillAndSubmitField e XPathUsername c.Username "username field" with ⟨t1, r1⟩
    have ht1 : t1 = fillTrace e XPathUsername c.Username := by
      rw [← fill_trace_eq e XPathUsername c.Username "username field", hF1]
    have hi1 := fill_ok_iff e XPathUsername c.Username "username field"
    rw [hF1] at hi1
    cases r1 with
    | some m =>
      have hok1 : fillStepOk e XPathUsername = false := by simpa using hi1
      simp [hp, hF1, ht1, hok1]
    | none =>
      have hok1 : fillStepOk e XPathUsername = true := by simpa using hi1
      rcases hF2 : fillAndSubmitField e XPathPassword c.Password "password field" with ⟨t2, r2⟩
      have ht2 : t2 = fillTrace e XPathPassword c.Password := by
        rw [← fill_trace_eq e XPathPassword c.Password "password field", hF2]
      have hi2 := fill_ok_iff e XPathPassword c.Password "password field"
      rw [hF2] at hi2
      cases r2 with
      | some m =>
        have hok2 : fillStepOk e XPathPassword = false := by simpa using hi2
        simp [hp, hF1, hF2, ht1, ht2, hok1, hok2]
      | none =>
        have hok2 : fillStepOk e XPathPassword = true := by simpa using hi2
        rcases hG : getTOTPCode e ce c with ⟨t3, code, r3⟩
        have ht3 : t3 = [Event.acquireTOTP] := by
          rw [← getTOTPCode_trace_eq e ce c, hG]
        have hcode : totpValue e ce c = code := by rw [totpValue, hG]
        cases r3 with
        | some m =>
          have hok3 : totpAcqOk e ce c = false := by rw [totpAcqOk, hG]; rfl
          simp [hp, hF1, hF2, hG, ht1, ht2, ht3, hok1, hok2, hok3]
        | none =>
          have hok3 : totpAcqOk e ce c = true := by rw [totpAcqOk, hG]; rfl
          rcases hF3 : fillAndSubmitField e XPathTOTP code "TOTP field" with ⟨t4, r4⟩
          have ht4 : t4 = fillTrace e XPathTOTP code := by
            rw [← fill_trace_eq e XPathTOTP code "TOTP field", hF3]
          have hi4 := fill_ok_iff e XPathTOTP code "TOTP field"
          rw [hF3] at hi4
          cases r4 with
          | some m =>
            have hok4 : fillStepOk e XPathTOTP = false := by simpa using hi4
            simp [hp, hF1, hF2, hG, hF3, ht1, ht2, ht3, ht4, hcode, hok1, hok2, hok3, hok4]
          | none =>
            have hok4 : fillStepOk e XPathTOTP = true := by simpa using hi4
            rcases hC1 : clickButton e XPathAllow1 "first Allow button" with ⟨t5, r5⟩
            have ht5 : t5 = clickTrace e XPathAllow1 := by
              rw [← click_trace_eq e XPathAllow1 "first Allow button", hC1]
            have hi5 := click_ok_iff e XPathAllow1 "first Allow button"
            rw [hC1] at hi5
            cases r5 with
            | some m =>
              have hok5 : clickStepOk e XPathAllow1 = false := by simpa using hi5
              simp [hp, hF1, hF2, hG, hF3, hC1, ht1, ht2, ht3, ht4, ht5, hcode,
                hok1, hok2, hok3, hok4, hok5]
            | none =>
              have hok5 : clickStepOk e XPathAllow1 = true := by simpa using hi5
              rcases hC2 : clickButton e XPathAllow2 "second Allow button" with ⟨t6, r6⟩
              have ht6 : t6 = clickTrace e XPathAllow2 := by
                rw [← click_trace_eq e XPathAllow2 "second Allow button", hC2]
              have hi6 := click_ok_iff e XPathAllow2 "second Allow button"
              rw [hC2] at hi6
              cases r6 with
              | some m =>
                have hok6 : clickStepOk e XPathAllow2 = false := by simpa using hi6
                simp [hp, hF1, hF2, hG, hF3, hC1, hC2, ht1, ht2, ht3, ht4, ht5, ht6,
                  hcode, hok1, hok2, hok3, hok4, hok5, hok6]
              | none =>
                have hok6 : clickStepOk e XPathAllow2 = true := by simpa using hi6
                rcases hS : checkSuccessMessage e with ⟨t7, r7⟩
                have ht7 : t7 = [Event.findEl XPathSuccess] := by
                  rw [← success_trace_eq e, hS]
                have hi7 := success_ok_iff e
                rw [hS] at hi7
                simp [hp, hF1, hF2, hG, hF3, hC1, hC2, hS, ht1, ht2, ht3, ht4, ht5,
                  ht6, ht7, hcode, hok1, hok2, hok3, hok4, hok5, hok6, hi7]

theorem loginSteps_trace (e : Env) (ce : CredEnv) (url : String) (c : Config) :
    (loginSteps e ce url c).1 = bodyTrace e ce url c :=
  (loginSteps_spec e ce url c).1

theorem loginSteps_ok (e : Env) (ce : CredEnv) (url : String) (c : Config) :
    (loginSteps e ce url c).2 = none ↔ innerOk e ce c = true :=
  (loginSteps_spec e ce url c).2

theorem automateBrowserLogin_trace (e : Env) (ce : CredEnv) (url : String) (c : Config) :
    (automateBrowserLogin e ce url c).1 =
      (if !e.launchOk then [Event.launch]
       else if !e.connectOk then [Event.launch, Event.connect]
       else [Event.launch, Event.connect] ++ bodyTrace e ce url c
         ++ teardown e c (!innerOk e ce c)) := by
  unfold automateBrowserLogin
  cases hl : e.launchOk
  · simp [hl]
  · cases hc : e.connectOk
    · simp [hl, hc]
    · rcases hB : loginSteps e ce url c with ⟨tb, rb⟩
      have h1 : tb = bodyTrace e ce url c := by rw [← loginSteps_trace e ce url c, hB]
      have h2 := loginSteps_ok e ce url c
      rw [hB] at h2
      have h3 : rb.isSome = !innerOk e ce c := by
        cases hrb : rb <;> simp [hrb] at h2 ⊢ <;> simp [h2]
      simp [hl, hc, hB, h1, h3]

theorem automateBrowserLogin_ok (e : Env) (ce : CredEnv) (url : String) (c : Config) :
    ((automateBrowserLogin e ce url c).2 = none ↔
      (e.launchOk && e.connectOk && innerOk e ce c) = true) := by
  unfold automateBrowserLogin
  cases hl : e.launchOk
  · simp [hl]
  · cases hc : e.connectOk
    · simp [hl, hc]
    · rcases hB : loginSteps e ce url c with ⟨tb, rb⟩
      have h2 := loginSteps_ok e ce url c
      rw [hB] at h2
      simp [hl, hc, hB, h2]

@[simp] theorem stepOf_openPage (u : String) : stepOfEvent (Event.openPage u) = some 0 := rfl

@[simp] theorem stepOf_acquire : stepOfEvent Event.acquireTOTP = some 3 := rfl

@[simp] theorem stepOf_inputEl (x v : String) : stepOfEvent (Event.inputEl x v) = none := rfl

@[simp] theorem stepOf_typeEnter (x : String) : stepOfEvent (Event.typeEnter x) = none := rfl

@[simp] theorem stepOf_clickEl (x : String) : stepOfEvent (Event.clickEl x) = none := rfl

@[simp] theorem stepOf_launch : stepOfEvent Event.launch = none := rfl

@[simp] theorem stepOf_connect : stepOfEvent Event.connect = none := rfl

@[simp] theorem stepOf_sleep (n : Nat) : stepOfEvent (Event.sleepDelay n) = none := rfl

@[simp] theorem stepOf_close : stepOfEvent Event.close = none := rfl

@[simp] theorem stepOf_logClose : stepOfEvent Event.logCloseError = none := rfl

@[simp] theorem stepOf_findU : stepOfEvent (Event.findEl XPathUsername) = some 1 := by decide

@[simp] theorem stepOf_findP : stepOfEvent (Event.findEl XPathPassword) = some 2 := by decide

@[simp] theorem stepOf_findT : stepOfEvent (Event.findEl XPathTOTP) = none := by decide

@[simp] theorem stepOf_findA1 : stepOfEvent (Event.findEl XPathAllow1) = some 4 := by decide

@[simp] theorem stepOf_findA2 : stepOfEvent (Event.findEl XPathAllow2) = some 5 := by decide

@[simp] theorem stepOf_findS : stepOfEvent (Event.findEl XPathSuccess) = some 6 := by decide

@[simp] theorem stepStarts_nil : stepStarts [] = [] := rfl

@[simp] theorem stepStarts_append (l₁ l₂ : List Event) :
    stepStarts (l₁ ++ l₂) = stepStarts l₁ ++ stepStarts l₂ := by
  unfold stepStarts; exact List.filterMap_append l₁ l₂ stepOfEvent


@[simp] theorem stepStarts_cons (a : Event) (l : List Event) :
    stepStarts (a :: l) =
      (match stepOfEvent a with
       | some s => s :: stepStarts l
       | none => stepStarts l) := by
  unfold stepStarts
  rw [List.filterMap_cons]
  cases stepOfEvent a <;> rfl

@[simp] theorem stepStarts_fillTrace (e : Env) (x v : String) :
    stepStarts (fillTrace e x v) = stepStarts [Event.findEl x] := by
  unfold fillTrace
  cases h1 : e.elementOk x <;> cases h2 : e.inputOk x <;> simp [h1, h2]

@[simp] theorem stepStarts_clickTrace (e : Env) (x : String) :
    stepStarts (clickTrace e x) = stepStarts [Event.findEl x] := by
  unfold clickTrace
  cases h1 : e.elementOk x <;> simp [h1]

@[simp] theorem stepStarts_teardown (e : Env) (c : Config) (b : Bool) :
    stepStarts (teardown e c b) = [] := by
  unfold teardown
  cases h1 : c.ShowBrowser <;> cases h2 : b <;> cases h3 : e.closeOk <;> simp [h1, h2, h3]

theorem stepStarts_bodyTrace (e : Env) (ce : CredEnv) (url : String) (c : Config) :
    stepStarts (bodyTrace e ce url c) = (List.range 7).take (innerStepCount e ce c) := by
  unfold bodyTrace innerStepCount
  cases hp : e.pageOk
  · simp [hp]; decide
  · cases hU : fillStepOk e XPathUsername
    · simp [hp, hU]; decide
    · cases hP : fillStepOk e XPathPassword
      · simp [hp, hU, hP]; decide
      · cases hA : totpAcqOk e ce c
        · simp [hp, hU, hP, hA]; decide
        · cases hT : fillStepOk e XPathTOTP
          · simp [hp, hU, hP, hA, hT]; decide
          · cases hC1 : clickStepOk e XPathAllow1
            · simp [hp, hU, hP, hA, hT, hC1]; decide
            · cases hC2 : clickStepOk e XPathAllow2
              · simp [hp, hU, hP, hA, hT, hC1, hC2]; decide
              · simp [hp, hU, hP, hA, hT, hC1, hC2]; decide

theorem fillTrace_all_body (e : Env) (x v : String) :
    (fillTrace e x v).all bodyEvent = true := by
  unfold fillTrace
  split_ifs <;> simp [bodyEvent]

theorem clickTrace_all_body (e : Env) (x : String) :
    (clickTrace e x).all bodyEvent = true := by
  unfold clickTrace
  split_ifs <;> simp [bodyEvent]

theorem bodyTrace_all_body (e : Env) (ce : CredEnv) (url : String) (c : Config) :
    (bodyTrace e ce url c).all bodyEvent = true := by
  unfold bodyTrace
  have h1 := fillTrace_all_body e XPathUsername c.Username
  have h2 := fillTrace_all_body e XPathPassword c.Password
  have h3 := fillTrace_all_body e XPathTOTP (totpValue e ce c)
  have h4 := clickTrace_all_body e XPathAllow1
  have h5 := clickTrace_all_body e XPathAllow2
  split_ifs <;> simp_all [bodyEvent]

theorem not_mem_bodyTrace_of_not_body (e : Env) (ce : CredEnv) (url : String)
    (c : Config) (ev : Event) (h : bodyEvent ev = false) :
    ev ∉ bodyTrace e ce url c := by
  intro hmem
  have := (List.all_eq_true.mp (bodyTrace_all_body e ce url c)) ev hmem
  rw [h] at this
  exact Bool.false_ne_true this

theorem close_not_mem_bodyTrace (e : Env) (ce : CredEnv) (url : String) (c : Config) :
    Event.close ∉ bodyTrace e ce url c :=
  not_mem_bodyTrace_of_not_body e ce url c Event.close rfl

theorem sleep_not_mem_bodyTrace (e : Env) (ce : CredEnv) (url : String) (c : Config)
    (n : Nat) : Event.sleepDelay n ∉ bodyTrace e ce url c :=
  not_mem_bodyTrace_of_not_body e ce url c (Event.sleepDelay n) rfl

theorem log_not_mem_bodyTrace (e : Env) (ce : CredEnv) (url : String) (c : Config) :
    Event.logCloseError ∉ bodyTrace e ce url c :=
  not_mem_bodyTrace_of_not_body e ce url c Event.logCloseError rfl

theorem acquire_not_mem_fillTrace (e : Env) (x v : String) :
    Event.acquireTOTP ∉ fillTrace e x v := by
  unfold fillTrace
  split_ifs <;> simp

theorem acquire_not_mem_clickTrace (e : Env) (x : String) :
    Event.acquireTOTP ∉ clickTrace e x := by
  unfold clickTrace
  split_ifs <;> simp

theorem acquire_not_mem_teardown (e : Env) (c : Config) (b : Bool) :
    Event.acquireTOTP ∉ teardown e c b := by
  unfold teardown
  split_ifs <;> simp

@[simp] theorem teardown_count_close (e : Env) (c : Config) (b : Bool) :
    (teardown e c b).count Event.close = 1 := by
  unfold teardown
  split_ifs <;> decide

@[simp] theorem teardown_close_mem (e : Env) (c : Config) (b : Bool) :
    Event.close ∈ teardown e c b := by
  unfold teardown
  split_ifs <;> simp

theorem teardown_sleep_mem (e : Env) (c : Config) (b : Bool) :
    (Event.sleepDelay BrowserCloseDelay ∈ teardown e c b) ↔ (c.ShowBrowser && b) = true := by
  unfold teardown
  split_ifs with h1 h2 <;> simp_all

theorem teardown_log_mem (e : Env) (c : Config) (b : Bool) :
    (Event.logCloseError ∈ teardown e c b) ↔ e.closeOk = false := by
  unfold teardown
  split_ifs with h1 h2 <;> simp_all

/-! ## Claim theorems -/

/-- C1: the login automation executes its steps in the fixed order (open device
URL, username, password, one-time code, first Allow, second Allow, success
indicator).  For every oracle, the steps the run starts are exactly the first
`stepCount` entries of the fixed sequence 0..6, where `stepCount` is one plus
the position of the first failing step (so a failure at position k means steps
k+1..n are never invoked, nothing is retried and nothing is skipped), and the
run succeeds exactly when the session is set up and all seven steps succeed. -/
theorem automateBrowserLogin_fixed_step_order (e : Env) (ce : CredEnv)
    (url : String) (c : Config) :
    stepStarts (automateBrowserLogin e ce url c).1
        = (List.range 7).take (stepCount e ce c)
      ∧ ((automateBrowserLogin e ce url c).2 = none ↔
          (e.launchOk && e.connectOk && innerOk e ce c) = true) := by
  constructor
  · rw [automateBrowserLogin_trace]
    unfold stepCount
    cases hl : e.launchOk
    · simp [hl]
    · cases hc : e.connectOk
      · simp [hl, hc]
      · simp [hl, hc, stepStarts_bodyTrace]
  · exact automateBrowserLogin_ok e ce url c

/-- C2 counterexample: in a run where the browser launches but the connection
to it fails, the launched browser is never closed — `Close` is called zero
times, contradicting the claim that every run closes the session exactly once
(including the launched-but-unconnected case). -/
theorem automateBrowserLogin_connectFail_no_close :
    (automateBrowserLogin envConnectFail ce0 "https://x" cfg0).1.count Event.launch = 1
      ∧ (automateBrowserLogin envConnectFail ce0 "https://x" cfg0).1.count Event.close = 0 := by
  decide

/-- C2 amended: once the launch and the connect both succeed, the browser
session is closed exactly once, regardless of which later step failed or
whether all steps succeeded; when the launch or the connect fails, the run
returns without calling `Close` at all (the deferred teardown is registered
only after `Connect` succeeds). -/
theorem automateBrowserLogin_close_iff_connected (e : Env) (ce : CredEnv)
    (url : String) (c : Config) :
    (automateBrowserLogin e ce url c).1.count Event.close
      = (if e.launchOk && e.connectOk then 1 else 0) := by
  rw [automateBrowserLogin_trace]
  cases hl : e.launchOk
  · simp [hl]
  · cases hc : e.connectOk
    · simp [hl, hc]
    · have hb : (bodyTrace e ce url c).count Event.close = 0 :=
        List.count_eq_zero.mpr (close_not_mem_bodyTrace e ce url c)
      simp [hl, hc, List.count_append, hb]

/-- C4: with a non-positive per-step timeout the run fails with the
configuration error before any browser-automation call is made (the returned
browser trace is empty). -/
theorem runSSO_nonpositive_timeout_config_error (e : Env) (ce : CredEnv)
    (stdin : List String) (scanErr : Bool) (c : Config)
    (h : c.TimeoutSeconds ≤ 0) :
    runSSO e ce stdin scanErr c = ([], some "timeout must be at least 1 second") := by
  unfold runSSO Config.ValidateConfig
  simp [h]

/-- C4 witness: the theorem applied to a concrete configuration with timeout
zero. -/
theorem runSSO_nonpositive_timeout_config_error_witness :
    runSSO envAllOk ce0 [] false cfgZeroTimeout
      = ([], some "timeout must be at least 1 second") :=
  runSSO_nonpositive_timeout_config_error envAllOk ce0 [] false cfgZeroTimeout (by decide)

theorem loginSteps_ignores_closeOk (e : Env) (ce : CredEnv) (url : String)
    (c : Config) (b : Bool) :
    loginSteps { e with closeOk := b } ce url c = loginSteps e ce url c := rfl

/-- C5: whenever a run tears the session down (the close call is in its
trace), the teardown is delayed by the `BrowserCloseDelay` grace period exactly
when the browser is visible and the run failed; no delay ever occurs in
headless mode, and none when the run succeeds. -/
theorem automateBrowserLogin_close_delay_iff_visible_failure (e : Env)
    (ce : CredEnv) (url : String) (c : Config) :
    (Event.close ∈ (automateBrowserLogin e ce url c).1 →
        (Event.sleepDelay BrowserCloseDelay ∈ (automateBrowserLogin e ce url c).1 ↔
          (c.ShowBrowser = true ∧ (automateBrowserLogin e ce url c).2 ≠ none)))
      ∧ (c.ShowBrowser = false →
          Event.sleepDelay BrowserCloseDelay ∉ (automateBrowserLogin e ce url c).1)
      ∧ ((automateBrowserLogin e ce url c).2 = none →
          Event.sleepDelay BrowserCloseDelay ∉ (automateBrowserLogin e ce url c).1) := by
  have htr := automateBrowserLogin_trace e ce url c
  have hok := automateBrowserLogin_ok e ce url c
  cases hl : e.launchOk
  · rw [hl] at htr hok
    simp at htr hok
    rw [htr]
    simp [hok]
  · cases hc : e.connectOk
    · rw [hl, hc] at htr hok
      simp at htr hok
      rw [htr]
      simp [hok]
    · rw [hl, hc] at htr hok
      simp at htr hok
      rw [htr]
      have hsl := sleep_not_mem_bodyTrace e ce url c BrowserCloseDelay
      have hsm := teardown_sleep_mem e c (!innerOk e ce c)
      cases hs : c.ShowBrowser <;> cases hi : innerOk e ce c <;>
        simp_all [List.mem_append]

/-- C5 witness: the theorem applied with a visible browser and a failing run
(every element lookup fails): the teardown happens and is preceded by the
grace-period sleep. -/
theorem automateBrowserLogin_close_delay_iff_visible_failure_witness :
    (Event.sleepDelay BrowserCloseDelay
        ∈ (automateBrowserLogin envStepFail ce0 "https://x" cfgVisible).1 ↔
      (cfgVisible.ShowBrowser = true ∧
        (automateBrowserLogin envStepFail ce0 "https://x" cfgVisible).2 ≠ none)) :=
  (automateBrowserLogin_close_delay_iff_visible_failure envStepFail ce0
    "https://x" cfgVisible).1 (by decide)

/-- C7: a failure of the session-close call during teardown never changes the
run's result — the returned error is identical whatever the close outcome is —
and the close failure is merely logged: the log event appears in the trace
exactly when the teardown ran (launch and connect succeeded) and the close
failed. -/
theorem close_failure_never_masks_result (e : Env) (ce : CredEnv) (url : String)
    (c : Config) (b : Bool) :
    (automateBrowserLogin { e with closeOk := b } ce url c).2
        = (automateBrowserLogin e ce url c).2
      ∧ (Event.logCloseError ∈ (automateBrowserLogin e ce url c).1 ↔
          (e.launchOk && e.connectOk && !e.closeOk) = true) := by
  constructor
  · unfold automateBrowserLogin
    rw [show ({ e with closeOk := b } : Env).launchOk = e.launchOk from rfl,
      show ({ e with closeOk := b } : Env).connectOk = e.connectOk from rfl,
      loginSteps_ignores_closeOk]
    cases hl : e.launchOk
    · simp [hl]
    · cases hc : e.connectOk
      · simp [hl, hc]
      · rcases hB : loginSteps e ce url c with ⟨tb, rb⟩
        simp [hl, hc, hB]
  · have htr := automateBrowserLogin_trace e ce url c
    cases hl : e.launchOk
    · rw [hl] at htr
      simp at htr
      rw [htr]
      simp [hl]
    · cases hc : e.connectOk
      · rw [hl, hc] at htr
        simp at htr
        rw [htr]
        simp [hl, hc]
      · rw [hl, hc] at htr
        simp at htr
        rw [htr]
        have hlg := log_not_mem_bodyTrace e ce url c
        have hlm := teardown_log_mem e c (!innerOk e ce c)
        cases hcl : e.closeOk <;> simp_all [List.mem_append]

theorem xpathTOTP_ne_username : XPathTOTP ≠ XPathUsername := by decide

theorem xpathTOTP_ne_password : XPathTOTP ≠ XPathPassword := by decide

theorem acquire_not_mem_tailTrace (e : Env) (ce : CredEnv) (c : Config) :
    Event.acquireTOTP ∉
      (if !totpAcqOk e ce c then ([] : List Event) else
        fillTrace e XPathTOTP (totpValue e ce c) ++
          (if !fillStepOk e XPathTOTP then [] else
            clickTrace e XPathAllow1 ++
              (if !clickStepOk e XPathAllow1 then [] else
                clickTrace e XPathAllow2 ++
                  (if !clickStepOk e XPathAllow2 then [] else
                    [Event.findEl XPathSuccess])))) := by
  split_ifs <;>
    simp [List.mem_append, acquire_not_mem_fillTrace, acquire_not_mem_clickTrace]

/-- C6: whenever the run acquires a one-time code (by TOTP generation or by
interactive prompt), the acquisition happens exactly once, strictly after the
username and password steps have completed (their submit keystrokes precede
it) and strictly before the code is filled into its field and submitted (no
fill or submit of the TOTP field precedes it). -/
theorem totp_acquired_after_password_before_fill (e : Env) (ce : CredEnv)
    (url : String) (c : Config)
    (h : Event.acquireTOTP ∈ (automateBrowserLogin e ce url c).1) :
    ∃ l₁ l₂, (automateBrowserLogin e ce url c).1 = l₁ ++ Event.acquireTOTP :: l₂
      ∧ Event.typeEnter XPathUsername ∈ l₁
      ∧ Event.typeEnter XPathPassword ∈ l₁
      ∧ Event.acquireTOTP ∉ l₁
      ∧ Event.acquireTOTP ∉ l₂
      ∧ (∀ v, Event.inputEl XPathTOTP v ∉ l₁)
      ∧ Event.typeEnter XPathTOTP ∉ l₁ := by
  have htr := automateBrowserLogin_trace e ce url c
  rw [htr] at h
  rw [htr]
  clear htr
  cases hl : e.launchOk
  · simp [hl] at h
  · cases hc : e.connectOk
    · simp [hl, hc] at h
    · simp only [hl, hc, Bool.not_true, Bool.false_eq_true, if_false] at h ⊢
      have hnt := acquire_not_mem_teardown e c (!innerOk e ce c)
      have hbody : Event.acquireTOTP ∈ bodyTrace e ce url c := by
        rcases List.mem_append.mp h with h1 | h2
        · rcases List.mem_append.mp h1 with h3 | h4
          · simp at h3
          · exact h4
        · exact absurd h2 hnt
      · unfold bodyTrace at hbody ⊢
        cases hp : e.pageOk
        · simp [hp] at hbody
        · cases hU : fillStepOk e XPathUsername
          · simp [hp, hU, acquire_not_mem_fillTrace] at hbody
          · cases hP : fillStepOk e XPathPassword
            · simp [hp, hU, hP, acquire_not_mem_fillTrace] at hbody
            · obtain ⟨⟨hU1, hU2⟩, hU3⟩ :
                  (e.elementOk XPathUsername = true ∧ e.inputOk XPathUsername = true)
                    ∧ e.enterOk XPathUsername = true := by
                have h0 := hU
                unfold fillStepOk at h0
                simpa [Bool.and_eq_true] using h0
              obtain ⟨⟨hP1, hP2⟩, hP3⟩ :
                  (e.elementOk XPathPassword = true ∧ e.inputOk XPathPassword = true)
                    ∧ e.enterOk XPathPassword = true := by
                have h0 := hP
                unfold fillStepOk at h0
                simpa [Bool.and_eq_true] using h0
              refine ⟨Event.launch :: Event.connect :: Event.openPage url ::
                  (fillTrace e XPathUsername c.Username
                    ++ fillTrace e XPathPassword c.Password),
                (if !totpAcqOk e ce c then ([] : List Event) else
                  fillTrace e XPathTOTP (totpValue e ce c) ++
                    (if !fillStepOk e XPathTOTP then [] else
                      clickTrace e XPathAllow1 ++
                        (if !clickStepOk e XPathAllow1 then [] else
                          clickTrace e XPathAllow2 ++
                            (if !clickStepOk e XPathAllow2 then [] else
                              [Event.findEl XPathSuccess]))))
                  ++ teardown e c (!innerOk e ce c),
                ?_, ?_, ?_, ?_, ?_, ?_, ?_⟩
              · simp [hp, hU, hP]
              · simp [fillTrace, hU1, hU2, hP1, hP2]
              · simp [fillTrace, hU1, hU2, hP1, hP2]
              · simp [fillTrace, hU1, hU2, hP1, hP2]
              · intro hx
                rcases List.mem_append.mp hx with hx1 | hx2
                · exact acquire_not_mem_tailTrace e ce c hx1
                · exact acquire_not_mem_teardown e c (!innerOk e ce c) hx2
              · intro v
                simp [fillTrace, hU1, hU2, hP1, hP2, xpathTOTP_ne_username,
                  xpathTOTP_ne_password]
              · simp [fillTrace, hU1, hU2, hP1, hP2, xpathTOTP_ne_username,
                  xpathTOTP_ne_password]

/-- C6 witness: the theorem applied to an all-success oracle. -/
theorem totp_acquired_after_password_before_fill_witness :
    ∃ l₁ l₂,
      (automateBrowserLogin envAllOk ce0 "https://x" cfg0).1
          = l₁ ++ Event.acquireTOTP :: l₂
        ∧ Event.typeEnter XPathUsername ∈ l₁
        ∧ Event.typeEnter XPathPassword ∈ l₁
        ∧ Event.acquireTOTP ∉ l₁
        ∧ Event.acquireTOTP ∉ l₂
        ∧ (∀ v, Event.inputEl XPathTOTP v ∉ l₁)
        ∧ Event.typeEnter XPathTOTP ∉ l₁ :=
  totp_acquired_after_password_before_fill envAllOk ce0 "https://x" cfg0 (by decide)

/-- C3: the spec's device-URL pattern admits any alphanumeric-hyphen host, but
`DeviceURLRegex` hardcodes the host `pashapay`: a line holding a device URL
with host `example` (which matches the spec's pattern) is not extracted — the
scan fails with "device URL not found" — while the same URL with host
`pashapay` is returned unchanged. -/
theorem readDeviceURLFromStdin_requires_pashapay_host :
    specDeviceURLMatch badHostLine = true
      ∧ readDeviceURLFromStdin [badHostLine] false
          = ("", some "device URL not found in AWS SSO output")
      ∧ readDeviceURLFromStdin [pashapayLine] false = (pashapayLine, none) := by
  decide

theorem applyCascade_frame (ce : CredEnv) (c : Config) :
    (applyCascade ce c).DeviceURL = c.DeviceURL
      ∧ (applyCascade ce c).ShowBrowser = c.ShowBrowser
      ∧ (applyCascade ce c).TimeoutSeconds = c.TimeoutSeconds
      ∧ (applyCascade ce c).LogLevel = c.LogLevel := by
  simp only [applyCascade]
  split_ifs <;> simp

theorem applyCascade_keeps (ce : CredEnv) (c : Config) :
    (c.Username ≠ "" → (applyCascade ce c).Username = c.Username)
      ∧ (c.Password ≠ "" → (applyCascade ce c).Password = c.Password)
      ∧ (c.TwoFA ≠ "" → (applyCascade ce c).TwoFA = c.TwoFA)
      ∧ (c.TOTPSecret ≠ "" → (applyCascade ce c).TOTPSecret = c.TOTPSecret) := by
  simp only [applyCascade]
  split_ifs <;> simp_all

/-- C8: when the device URL is not supplied directly and a required credential
is still missing after the CLI-flag and environment-variable cascade,
`getCredentials` fails with the "interactive prompts work only with
--device-url flag" error and issues no interactive prompt; more generally,
whenever the device URL was not supplied directly, no interactive prompt is
ever issued. -/
theorem getCredentials_no_prompt_when_piped (ce : CredEnv) (c : Config) :
    (c.DeviceURL = "" →
        (applyCascade ce c).hasIncompleteCredentials = true →
        getCredentials ce c
          = ([], applyCascade ce c,
             some "interactive prompts work only with --device-url flag"))
      ∧ (c.DeviceURL = "" → (getCredentials ce c).1 = []) := by
  have hf := (applyCascade_frame ce c).1
  constructor
  · intro h1 h2
    simp only [getCredentials]
    simp [hf, h1, h2]
  · intro h1
    cases h2 : (applyCascade ce c).hasIncompleteCredentials
    · have hU2 : ¬((applyCascade ce c).Username = "") := by
        intro hx
        unfold Config.hasIncompleteCredentials at h2
        rw [hx] at h2
        simp at h2
      have hP2 : ¬((applyCascade ce c).Password = "") := by
        intro hx
        unfold Config.hasIncompleteCredentials at h2
        rw [hx] at h2
        simp at h2
      simp only [getCredentials]
      simp [hf, h1, h2, hU2, hP2]
    · simp only [getCredentials]
      simp [hf, h1, h2]

/-- C8 witness: the theorem applied to an empty configuration (no device URL,
no credentials): the guard error is returned with no prompt issued. -/
theorem getCredentials_no_prompt_when_piped_witness :
    getCredentials ce0 cfgEmpty
      = ([], applyCascade ce0 cfgEmpty,
         some "interactive prompts work only with --device-url flag") :=
  (getCredentials_no_prompt_when_piped ce0 cfgEmpty).1 (by decide) (by decide)

/-- C9: `getCredentials` never overwrites a credential field that was already
non-empty (a CLI-supplied value is kept verbatim; the environment variable and
the prompt are consulted only for empty fields), and it leaves the DeviceURL,
ShowBrowser, TimeoutSeconds and LogLevel fields unchanged. -/
theorem getCredentials_preserves_nonempty_and_frame (ce : CredEnv) (c : Config) :
    (c.Username ≠ "" → ((getCredentials ce c).2.1).Username = c.Username)
      ∧ (c.Password ≠ "" → ((getCredentials ce c).2.1).Password = c.Password)
      ∧ (c.TwoFA ≠ "" → ((getCredentials ce c).2.1).TwoFA = c.TwoFA)
      ∧ (c.TOTPSecret ≠ "" → ((getCredentials ce c).2.1).TOTPSecret = c.TOTPSecret)
      ∧ ((getCredentials ce c).2.1).DeviceURL = c.DeviceURL
      ∧ ((getCredentials ce c).2.1).ShowBrowser = c.ShowBrowser
      ∧ ((getCredentials ce c).2.1).TimeoutSeconds = c.TimeoutSeconds
      ∧ ((getCredentials ce c).2.1).LogLevel = c.LogLevel := by
  obtain ⟨hk1, hk2, hk3, hk4⟩ := applyCascade_keeps ce c
  obtain ⟨hf1, hf2, hf3, hf4⟩ := applyCascade_frame ce c
  rcases hPU : promptForInput ce "Enter AWS SSO username: " false with ⟨u, ru⟩
  rcases hPP : promptForInput ce "Enter AWS SSO password: " true with ⟨pw, rp⟩
  simp only [getCredentials, hPU, hPP]
  cases ru <;> cases rp <;> split_ifs <;> simp_all <;>
    first
      | exact hk1
      | exact hk2
      | exact fun h => absurd (hk1 h).symm h
      | exact fun h => absurd (hk2 h).symm h
      | exact ⟨fun h => absurd (hk1 h).symm h, fun h => absurd (hk2 h).symm h⟩

/-- C9 witness: the theorem applied to a configuration whose fields are all
supplied on the command line. -/
theorem getCredentials_preserves_nonempty_and_frame_witness :
    ((getCredentials ce0 cfgFull).2.1).Username = cfgFull.Username
      ∧ ((getCredentials ce0 cfgFull).2.1).Password = cfgFull.Password
      ∧ ((getCredentials ce0 cfgFull).2.1).TwoFA = cfgFull.TwoFA
      ∧ ((getCredentials ce0 cfgFull).2.1).TOTPSecret = cfgFull.TOTPSecret
      ∧ ((getCredentials ce0 cfgFull).2.1).DeviceURL = cfgFull.DeviceURL
      ∧ ((getCredentials ce0 cfgFull).2.1).ShowBrowser = cfgFull.ShowBrowser
      ∧ ((getCredentials ce0 cfgFull).2.1).TimeoutSeconds = cfgFull.TimeoutSeconds
      ∧ ((getCredentials ce0 cfgFull).2.1).LogLevel = cfgFull.LogLevel := by
  have h := getCredentials_preserves_nonempty_and_frame ce0 cfgFull
  exact ⟨h.1 (by decide), h.2.1 (by decide), h.2.2.1 (by decide),
    h.2.2.2.1 (by decide), h.2.2.2.2.1, h.2.2.2.2.2.1, h.2.2.2.2.2.2.1,
    h.2.2.2.2.2.2.2⟩

theorem promptForInput_ok_nonempty (ce : CredEnv) (p : String) (sec : Bool) :
    (promptForInput ce p sec).2 = none → (promptForInput ce p sec).1 ≠ "" := by
  unfold promptForInput
  cases hsec : sec
  · cases hre : ce.plainReadErr
    · by_cases hinp : trimSpace ce.plainInput = "" <;> simp [hre, hinp]
    · simp [hre]
  · cases hre : ce.secureReadErr
    · by_cases hinp : ce.secureInput = "" <;> simp [hre, hinp]
    · simp [hre]

/-- C10: whenever `promptForInput` returns successfully the returned string is
non-empty (empty input — including plain input that is all whitespace after
trimming — is rejected with an error), and consequently whenever
`getCredentials` returns successfully the username and password fields are
non-empty. -/
theorem promptForInput_nonempty_getCredentials_nonempty (ce : CredEnv)
    (c : Config) (p : String) (sec : Bool) :
    ((promptForInput ce p sec).2 = none → (promptForInput ce p sec).1 ≠ "")
      ∧ ((getCredentials ce c).2.2 = none →
          ((getCredentials ce c).2.1).Username ≠ ""
            ∧ ((getCredentials ce c).2.1).Password ≠ "") := by
  constructor
  · exact promptForInput_ok_nonempty ce p sec
  · have hu := promptForInput_ok_nonempty ce "Enter AWS SSO username: " false
    have hw := promptForInput_ok_nonempty ce "Enter AWS SSO password: " true
    rcases hPU : promptForInput ce "Enter AWS SSO username: " false with ⟨u, ru⟩
    rcases hPP : promptForInput ce "Enter AWS SSO password: " true with ⟨pw, rp⟩
    rw [hPU] at hu
    rw [hPP] at hw
    simp only [getCredentials, hPU, hPP]
    cases ru <;> cases rp <;> split_ifs <;> simp_all

/-- C10 witness: a successful prompt returns a non-empty (trimmed) string, and
a successful `getCredentials` run leaves non-empty username and password. -/
theorem promptForInput_nonempty_getCredentials_nonempty_witness :
    (promptForInput ceW "Enter AWS SSO username: " false).1 ≠ ""
      ∧ ((getCredentials ce0 cfgFull).2.1).Username ≠ ""
      ∧ ((getCredentials ce0 cfgFull).2.1).Password ≠ "" := by
  refine ⟨(promptForInput_nonempty_getCredentials_nonempty ceW cfgFull
      "Enter AWS SSO username: " false).1 (by decide), ?_, ?_⟩
  · exact ((promptForInput_nonempty_getCredentials_nonempty ce0 cfgFull
      "x" false).2 (by decide)).1
  · exact ((promptForInput_nonempty_getCredentials_nonempty ce0 cfgFull
      "x" false).2 (by decide)).2
